import Mathlib

/-!
Shallow embedding of the ZOON Tomsk restaurants scraper, verified against its
natural-language specification.  The repository contains two parallel
implementations of the same workflow:

* `src/main.py` — the config-driven variant (`ParserConfig`, `ZoonScraper`);
* `zoon_tomsk_restaurants.py` — the standalone script with module constants.

The browser is modelled as an oracle: each page supplies a sequence of page
sources (one per `page_source` read, so polling and refreshing advance the
index), a container-presence predicate, and the card elements that each card
selector returns.  A DOM card is a document-ordered list of nodes; each node
carries the set of simple selectors it matches and its rendered text.  A
compound CSS selector "a, b" is embedded as the list of its simple selectors,
and `find_element` returns the first node in document order matching any of
them.  All string manipulation is implemented on `List Char` so that every
definition evaluates inside the kernel.  Python's `float` rating values are
embedded as exact rationals (all parsed values are decimal fractions).
Timing (sleeps, scrolling) has no effect on the observable state and is not
modelled.
-/

namespace Zoon

/-! ## Python string primitives -/

/-- Characters Python's bare `str.strip()` removes from both ends. -/
def pyWs : List Char := [' ', '\t', '\n', '\r', '\x0b', '\x0c']

/-- Separator characters stripped around category texts: `.strip(" ·—-\n\t")`. -/
def sepChars : List Char := [' ', '·', '—', '-', '\n', '\t']

/-- Drop the given characters from both ends of a character list. -/
def dropEnds (chars : List Char) (cs : List Char) : List Char :=
  ((cs.dropWhile (chars.contains ·)).reverse.dropWhile (chars.contains ·)).reverse

/-- Python `s.strip()`. -/
def pyStrip (s : String) : String := ⟨dropEnds pyWs s.data⟩

/-- Python `s.strip(" ·—-\n\t")`. -/
def pyStripSep (s : String) : String := ⟨dropEnds sepChars s.data⟩

/-- Python `s.lower()` (ASCII case folding; the challenge markers are already
lower-case, and both variants lower-case identically). -/
def pyLower (s : String) : String := ⟨s.data.map Char.toLower⟩

/-- Python `s.rstrip('/')`: remove every trailing slash. -/
def rstripSlash (s : String) : String := ⟨(s.data.reverse.dropWhile (· == '/')).reverse⟩

/-- Whether the pattern is an initial segment of the character list. -/
def matchHere : List Char → List Char → Bool
  | [], _ => true
  | _ :: _, [] => false
  | a :: as, b :: bs => a == b && matchHere as bs

/-- Whether the pattern occurs contiguously somewhere in the character list. -/
def occursIn (t : List Char) : List Char → Bool
  | [] => t.isEmpty
  | b :: bs => matchHere t (b :: bs) || occursIn t bs

/-- Python `t in s` substring containment. -/
def strContains (s t : String) : Bool := occursIn t.data s.data

/-- Python `sep.join(ss)`. -/
def joinWith (sep : String) : List String → String
  | [] => ""
  | [x] => x
  | x :: y :: rest => x ++ sep ++ joinWith sep (y :: rest)

/-! ## Rating text parsing: `re.search(r"(\d+[.,]\d+|\d+)", text)` followed by
`float(match.group(1).replace(",", "."))`. -/

/-- Value of a digit run read as a natural number. -/
def digitsToNat (cs : List Char) : Nat :=
  cs.foldl (fun acc c => 10 * acc + (c.toNat - '0'.toNat)) 0

/-- The regex match produced at a position whose first character is a digit:
the alternative `\d+[.,]\d+` is preferred (with greedy digit runs), otherwise
the plain `\d+` run is taken. -/
def numMatchAt (cs : List Char) : List Char :=
  let d1 := cs.takeWhile (·.isDigit)
  let r1 := cs.dropWhile (·.isDigit)
  match r1 with
  | c :: r2 =>
    if c == '.' || c == ',' then
      let d2 := r2.takeWhile (·.isDigit)
      if d2.isEmpty then d1 else d1 ++ c :: d2
    else d1
  | [] => d1

/-- Leftmost regex search for `(\d+[.,]\d+|\d+)`. -/
def searchNum : List Char → Option (List Char)
  | [] => none
  | c :: rest => if c.isDigit then some (numMatchAt (c :: rest)) else searchNum rest

/-- Python `.replace(",", ".")` on the matched text. -/
def replaceCommaDot (cs : List Char) : List Char :=
  cs.map (fun c => if c == ',' then '.' else c)

/-- Parse a normalized decimal literal (digits, optionally `.` then digits)
as an exact rational, the value `float` assigns to it: the integer part plus
the fraction digits over the matching power of ten. -/
def parseDecimal (cs : List Char) : ℚ :=
  let ip := cs.takeWhile (· != '.')
  let rest := cs.dropWhile (· != '.')
  match rest with
  | _ :: frac => mkRat (digitsToNat ip * 10 ^ frac.length + digitsToNat frac) (10 ^ frac.length)
  | [] => mkRat (digitsToNat ip) 1

/-! ## DOM and browser oracle -/

/-- One DOM node inside a card: the simple selectors it matches, in the sense
of CSS matching, and its rendered text. -/
structure Node where
  sels : List String
  text : String
deriving DecidableEq

/-- A card element: its DOM nodes in document order. -/
structure Card where
  nodes : List Node
deriving DecidableEq

/-- The selector-list embedding of a compound CSS selector. -/
abbrev Selector := List String

/-- Selenium `find_element(By.CSS_SELECTOR, sel)`: first node in document
order matching any simple selector of the compound selector, if any. -/
def findElement (c : Card) (sel : Selector) : Option Node :=
  c.nodes.find? (fun n => sel.any (fun s => n.sels.contains s))

/-- Selenium `find_elements(By.CSS_SELECTOR, sel)`: all matching nodes in
document order. -/
def findElements (c : Card) (sel : Selector) : List Node :=
  c.nodes.filter (fun n => sel.any (fun s => n.sels.contains s))

/-- What the browser supplies while one page is processed: the page source at
the i-th `page_source` read (polling and refreshes advance the index), which
container selectors become present within their wait budget, and the card
elements each card selector returns. -/
structure PageEnv where
  pageSource : Nat → String
  containerPresent : String → Bool
  findCards : Selector → List Card

/-! ## Record model and extraction (`src/main.py`) -/

/-- A scraped listing: name, optional rating, category tags. -/
structure Place where
  name : String
  rating : Option ℚ
  categories : List String
deriving DecidableEq

/-- `ZoonScraper.PROTECT_TOKENS`. -/
def PROTECT_TOKENS : List String :=
  ["мы проверяем, что вы не робот", "checking your browser",
   "you will be redirected", "cloudflare", "подождите несколько секунд"]

/-- `ZoonScraper.CARD_SELECTORS`. -/
def CARD_SELECTORS : List Selector :=
  [["li.minicard-item.js-results-item"], ["div.minicard-item"]]

/-- `ZoonScraper.FEATURES_SELECTOR`. -/
def FEATURES_SELECTOR : Selector :=
  [".minicard-item__features a", ".service-items a", ".tags a"]

/-- `ZoonScraper.TITLE_SELECTORS`. -/
def TITLE_SELECTORS : List Selector :=
  [["a.title-link.js-item-url"], [".minicard-item__title"], ["h2"]]

/-- `ZoonScraper.RATING_SELECTOR`. -/
def RATING_SELECTOR : Selector := [".minicard-item__rating", ".rating", ".stars"]

/-- `ZoonScraper._is_protect_screen`: lower-case the page source and test the
markers by substring containment. -/
def is_protect (src : String) : Bool :=
  PROTECT_TOKENS.any (fun t => strContains (pyLower src) t)

/-- `ZoonScraper._extract_name`, iterating over the remaining title
selectors: first selector whose element yields non-empty stripped text. -/
def extractNameFrom (card : Card) : List Selector → String
  | [] => ""
  | sel :: rest =>
    match findElement card sel with
    | some el =>
      let t := pyStrip el.text
      if t != "" then t else extractNameFrom card rest
    | none => extractNameFrom card rest

/-- `ZoonScraper._extract_name`. -/
def extract_name (card : Card) : String := extractNameFrom card TITLE_SELECTORS

/-- `ZoonScraper._extract_rating`. -/
def extract_rating (card : Card) : Option ℚ :=
  match findElement card RATING_SELECTOR with
  | none => none
  | some el =>
    match searchNum (pyStrip el.text).data with
    | none => none
    | some m => some (parseDecimal (replaceCommaDot m))

/-- The category loop body: keep non-empty, first-occurrence-unique stripped
texts, threading the `seen` set. -/
def dedupKeep (seen : List String) : List String → List String
  | [] => []
  | t :: rest =>
    if t != "" && !(seen.contains t) then t :: dedupKeep (t :: seen) rest
    else dedupKeep seen rest

/-- The stripped texts of all feature links of a card, in document order. -/
def stripTexts (card : Card) : List String :=
  (findElements card FEATURES_SELECTOR).map (fun n => pyStripSep n.text)

/-- `ZoonScraper._extract_categories`. -/
def extract_categories (card : Card) : List String := dedupKeep [] (stripTexts card)

/-- `ZoonScraper._parse_card`. -/
def parse_card (card : Card) : Place :=
  { name := extract_name card
    rating := extract_rating card
    categories := extract_categories card }

/-! ## Configuration (`ParserConfig`) — the behaviour-relevant fields; the
timing bounds, user agents, window sizes and output paths have no effect on
the observable run state and are not modelled. -/

/-- `ParserConfig` with its source defaults. -/
structure ParserConfig where
  city_url : String := "https://zoon.ru/tomsk/restaurants/"
  total_pages : Nat := 34
  headless : Bool := false
  protect_poll_attempts : Nat := 10
  protect_manual_retry_attempts : Nat := 6
deriving DecidableEq

/-- `ParserConfig.page_url`. -/
def ParserConfig.page_url (cfg : ParserConfig) (page : Nat) : String :=
  if page = 1 then cfg.city_url
  else rstripSlash cfg.city_url ++ "/page-" ++ toString page ++ "/"

/-- The default configuration `ParserConfig()` built by `main`. -/
def defaultConfig : ParserConfig := {}

/-! ## Log lines (the f-strings appended to `self.logs`) -/

/-- Common shape of the per-page status lines, all starting with "Стр. ". -/
def pageLine (page : Nat) (suffix : String) : String :=
  "Стр. " ++ (toString page ++ suffix)

/-- Log line `Открыта страница {page}: {url}`. -/
def openedLine (page : Nat) (url : String) : String :=
  "Открыта страница " ++ (toString page ++ (": " ++ url))

/-- Log line `Стр. {page}: экран проверки — ждём редирект`. -/
def challengeLine (page : Nat) : String := pageLine page ": экран проверки — ждём редирект"

/-- Log line `Стр. {page}: проверка не пройдена — стоп`. -/
def protectStopLine (page : Nat) : String := pageLine page ": проверка не пройдена — стоп"

/-- Log line `Стр. {page}: ручное подтверждение пользователя`. -/
def manualConfirmLine (page : Nat) : String := pageLine page ": ручное подтверждение пользователя"

/-- Log line `Стр. {page}: проверка не пройдена после ручного подтверждения — стоп`. -/
def protectManualStopLine (page : Nat) : String :=
  pageLine page ": проверка не пройдена после ручного подтверждения — стоп"

/-- Log line `Стр. {page}: контейнер не найден — стоп`. -/
def containerStopLine (page : Nat) : String := pageLine page ": контейнер не найден — стоп"

/-- Log line `Стр. {page}: карточек нет — стоп`. -/
def noCardsLine (page : Nat) : String := pageLine page ": карточек нет — стоп"

/-- Log line `Стр. {page}: карточек {found}, добавлено {added}, всего {total}`. -/
def successLine (page found added total : Nat) : String :=
  pageLine page (": карточек " ++ (toString found ++ (", добавлено " ++
    (toString added ++ (", всего " ++ toString total)))))

/-! ## Persisted output -/

/-- One CSV cell as placed into the DataFrame: a string, or a float rating. -/
inductive Cell where
  | str : String → Cell
  | num : ℚ → Cell
deriving DecidableEq

/-- The DataFrame header: insertion order of the row-dict keys. -/
def CSV_HEADER : List String := ["Название", "Рейтинг", "Направления"]

/-- One row of `df_from_places`: name; rating or empty string; categories
joined with " | " or empty string. -/
def placeRow (p : Place) : List Cell :=
  [Cell.str p.name,
   match p.rating with
   | some r => Cell.num r
   | none => Cell.str "",
   Cell.str (if p.categories.isEmpty then "" else joinWith " | " p.categories)]

/-- `df_from_places`. -/
def df_from_places (places : List Place) : List (List Cell) := places.map placeRow

/-- Python `f"{page:02d}"`. -/
def pad2 (n : Nat) : String := if n < 10 then "0" ++ toString n else toString n

/-- One file-system snapshot written by `_savePartial`: the page-keyed CSV
(header and full rows) and the page-keyed log file (full log history). -/
structure Save where
  csvName : String
  logName : String
  header : List String
  rows : List (List Cell)
  logLines : List String
deriving DecidableEq

/-! ## Run state and the run loop (`ZoonScraper`) -/

/-- The scraper's mutable state: accumulated places, log entries, and the
sequence of partial saves written so far. -/
structure RunState where
  places : List Place
  logs : List String
  saves : List Save
deriving DecidableEq

/-- The state at `run()` entry: empty accumulators. -/
def initState : RunState := { places := [], logs := [], saves := [] }

/-- `ZoonScraper._savePartial`. -/
def savePartial (page : Nat) (st : RunState) : RunState :=
  { st with saves := st.saves ++
      [{ csvName := "zoon_tomsk_restaurants_page_" ++ pad2 page ++ ".csv"
         logName := "zoon_loader_log_page_" ++ pad2 page ++ ".txt"
         header := CSV_HEADER
         rows := df_from_places st.places
         logLines := st.logs }] }

/-- Result of the i-th `_is_protect_screen` call on this page. -/
def protAt (env : PageEnv) (i : Nat) : Bool := is_protect (env.pageSource i)

/-- Whether some check among `start .. start+n-1` sees the challenge cleared
(the retry loops exit at the first clear check). -/
def clearWithin (env : PageEnv) (start n : Nat) : Bool :=
  (List.range n).any (fun i => !(protAt env (start + i)))

/-- `ZoonScraper._handle_protect_screen`: returns whether the page may
proceed, together with the log lines it appends. -/
def handle_protect_screen (cfg : ParserConfig) (page : Nat) (env : PageEnv) :
    Bool × List String :=
  if !(protAt env 0) then (true, [])
  else if clearWithin env 1 cfg.protect_poll_attempts then (true, [challengeLine page])
  else if cfg.headless then (false, [challengeLine page, protectStopLine page])
  else if clearWithin env (1 + cfg.protect_poll_attempts) cfg.protect_manual_retry_attempts then
    (true, [challengeLine page, manualConfirmLine page])
  else
    (false, [challengeLine page, manualConfirmLine page, protectManualStopLine page])

/-- `ZoonScraper._wait_cards_container`: try the candidate container
selectors in order; true iff one of them resolves within its wait budget. -/
def wait_cards_container (env : PageEnv) : Bool :=
  ["ul.js-results-group", "div.catalog-list", "div.results-container"].any
    env.containerPresent

/-- `ZoonScraper._collect_cards`, iterating over the remaining card
selectors: the first non-empty match set, else empty. -/
def collectFrom (env : PageEnv) : List Selector → List Card
  | [] => []
  | sel :: rest =>
    let items := env.findCards sel
    if !items.isEmpty then items else collectFrom env rest

/-- `ZoonScraper._collect_cards`. -/
def collect_cards (env : PageEnv) : List Card := collectFrom env CARD_SELECTORS

/-- `ZoonScraper._append_cards` on the places list: append each parsed card
whose name is non-empty. -/
def append_cards (places : List Place) (cards : List Card) : List Place :=
  places ++ (cards.map parse_card).filter (fun p => p.name != "")

/-- `ZoonScraper._process_page`: one iteration of the run loop. Returns the
updated state and whether the loop continues to the next page. -/
def process_page (cfg : ParserConfig) (page : Nat) (env : PageEnv) (st : RunState) :
    RunState × Bool :=
  let st1 : RunState :=
    { st with logs := st.logs ++ [openedLine page (cfg.page_url page)] }
  let pr := handle_protect_screen cfg page env
  let st2 : RunState := { st1 with logs := st1.logs ++ pr.2 }
  if !pr.1 then (st2, false)
  else if !(wait_cards_container env) then
    ({ st2 with logs := st2.logs ++ [containerStopLine page] }, false)
  else
    let cards := collect_cards env
    if cards.isEmpty then
      ({ st2 with logs := st2.logs ++ [noCardsLine page] }, false)
    else
      let newPlaces := append_cards st2.places cards
      let added := newPlaces.length - st2.places.length
      let st3 : RunState :=
        { st2 with places := newPlaces
                   logs := st2.logs ++ [successLine page cards.length added newPlaces.length] }
      (savePartial page st3, true)

/-- The `for page in range(1, total_pages+1)` loop with early `break`,
running from `page` with `fuel` remaining iterations. -/
def runFrom (cfg : ParserConfig) (env : Nat → PageEnv) : Nat → Nat → RunState → RunState
  | _, 0, st => st
  | page, Nat.succ n, st =>
    let r := process_page cfg page (env page) st
    if r.2 then runFrom cfg env (page + 1) n r.1 else r.1

/-- `ZoonScraper.run`: the full page loop from page 1 over all configured
pages, starting from the empty state. -/
def runPages (cfg : ParserConfig) (env : Nat → PageEnv) : RunState :=
  runFrom cfg env 1 cfg.total_pages initState

/-- Number of pages the loop actually opens (the aborting page included). -/
def visitedCount (cfg : ParserConfig) (env : Nat → PageEnv) : Nat → Nat → RunState → Nat
  | _, 0, _ => 0
  | page, Nat.succ n, st =>
    let r := process_page cfg page (env page) st
    if r.2 then 1 + visitedCount cfg env (page + 1) n r.1 else 1

/-! ## The standalone script (`zoon_tomsk_restaurants.py`) -/

/-- Module constant `CITY_URL`. -/
def CITY_URL : String := "https://zoon.ru/tomsk/restaurants/"

/-- Module constant `TOTAL_PAGES`. -/
def TOTAL_PAGES : Nat := 34

/-- Module constant `HEADLESS`. -/
def HEADLESS : Bool := false

/-- Script `page_url`. -/
def zoonPageUrl (n : Nat) : String :=
  if n = 1 then CITY_URL else rstripSlash CITY_URL ++ "/page-" ++ toString n ++ "/"

/-- Script `is_protect_screen` with its inline `keys` list. -/
def zoonIsProtect (src : String) : Bool :=
  (["мы проверяем, что вы не робот", "checking your browser",
    "you will be redirected", "cloudflare", "подождите несколько секунд"] :
      List String).any (fun k => strContains (pyLower src) k)

/-- Script `collect_cards` with its inline selector tuple. -/
def zoonCollectCards (env : PageEnv) : List Card :=
  collectFrom env [["li.minicard-item.js-results-item"], ["div.minicard-item"]]

/-- Name extraction inside script `parse_card`: the primary selector's
stripped text whenever its element exists (even when empty), else the
combined fallback selector's stripped text, else the empty string. -/
def zoonName (card : Card) : String :=
  match findElement card ["a.title-link.js-item-url"] with
  | some el => pyStrip el.text
  | none =>
    match findElement card [".minicard-item__title", "h2"] with
    | some el => pyStrip el.text
    | none => ""

/-- Rating extraction inside script `parse_card`. -/
def zoonRating (card : Card) : Option ℚ :=
  match findElement card [".minicard-item__rating", ".rating", ".stars"] with
  | none => none
  | some el =>
    match searchNum (pyStrip el.text).data with
    | none => none
    | some m => some (parseDecimal (replaceCommaDot m))

/-- Categories extraction inside script `parse_card`. -/
def zoonCategories (card : Card) : List String :=
  dedupKeep []
    ((findElements card [".minicard-item__features a", ".service-items a", ".tags a"]).map
      (fun n => pyStripSep n.text))

/-- Script `parse_card`. -/
def zoonParseCard (card : Card) : Place :=
  { name := zoonName card
    rating := zoonRating card
    categories := zoonCategories card }

/-- The challenge block inside `scrape_all_pages`: poll 8 times; if still
challenged and not headless, log the manual confirmation and wait for Enter.
It never aborts — it only appends log lines and falls through. -/
def zoonProtectLogs (page : Nat) (env : PageEnv) : List String :=
  if !(protAt env 0) then []
  else if clearWithin env 1 8 then [challengeLine page]
  else if !HEADLESS then [challengeLine page, manualConfirmLine page]
  else [challengeLine page]

/-- One iteration of the `scrape_all_pages` loop: returns the updated state
and whether the loop continues. -/
def zoonStep (env : PageEnv) (page : Nat) (st : RunState) : RunState × Bool :=
  let st1 : RunState := { st with logs := st.logs ++ [openedLine page (zoonPageUrl page)] }
  let st2 : RunState := { st1 with logs := st1.logs ++ zoonProtectLogs page env }
  if !(wait_cards_container env) then
    ({ st2 with logs := st2.logs ++ [containerStopLine page] }, false)
  else
    let cards := zoonCollectCards env
    if cards.isEmpty then
      ({ st2 with logs := st2.logs ++ [noCardsLine page] }, false)
    else
      let newPlaces := st2.places ++ (cards.map zoonParseCard).filter (fun p => p.name != "")
      let added := newPlaces.length - st2.places.length
      let st3 : RunState :=
        { st2 with places := newPlaces
                   logs := st2.logs ++ [successLine page cards.length added newPlaces.length] }
      (savePartial page st3, true)

/-- The `scrape_all_pages` page loop from `page` with `fuel` remaining. -/
def zoonRunFrom (env : Nat → PageEnv) : Nat → Nat → RunState → RunState
  | _, 0, st => st
  | page, Nat.succ n, st =>
    let r := zoonStep (env page) page st
    if r.2 then zoonRunFrom env (page + 1) n r.1 else r.1

/-- Number of pages `scrape_all_pages` actually opens. -/
def zoonVisited (env : Nat → PageEnv) : Nat → Nat → RunState → Nat
  | _, 0, _ => 0
  | page, Nat.succ n, st =>
    let r := zoonStep (env page) page st
    if r.2 then 1 + zoonVisited env (page + 1) n r.1 else 1

/-- `scrape_all_pages` over all `TOTAL_PAGES` pages. -/
def zoonRun (env : Nat → PageEnv) : RunState := zoonRunFrom env 1 TOTAL_PAGES initState

/-! ## Browser session release (`ZoonScraper.close` and the `try/finally`
around the run loop). The driver handle and the number of `quit()` calls are
explicit state; `quit()` may fail, and Python's `try: ... except: pass`
together with the `finally: self._driver = None` inside `close` is embedded
by the case analysis on the quit outcome. -/

/-- The scraper's driver slot: whether `_driver` is set, and how many times
`quit()` has been invoked on it. -/
structure Session where
  driver : Bool
  quitCalls : Nat
deriving DecidableEq

/-- Outcome of `self._driver.quit()` as the environment decides it. -/
def quitDriver (fails : Bool) : Except String Unit :=
  if fails then Except.error "quit failed" else Except.ok ()

/-- `ZoonScraper.close`: no-op when `_driver is None`; otherwise call
`quit()`, swallow any error it raises, and null the slot in a `finally`.
The second component is the error `close` itself lets escape — always none. -/
def close (fails : Bool) (s : Session) : Session × Except String Unit :=
  if s.driver then
    match quitDriver fails with
    | Except.ok _ => ({ driver := false, quitCalls := s.quitCalls + 1 }, Except.ok ())
    | Except.error _ => ({ driver := false, quitCalls := s.quitCalls + 1 }, Except.ok ())
  else (s, Except.ok ())

/-- The `try: loop finally: self.close()` of `run`: whatever the loop body's
outcome (a final state or an uncaught fault), `close` runs, and since `close`
never raises, the body's outcome is returned unchanged. -/
def runWithCleanup (body : Except String RunState) (fails : Bool) (s : Session) :
    Except String RunState × Session :=
  (body, (close fails s).1)

/-! ## Concrete fixtures used to evaluate the model -/

/-- A card whose single node is a rating element with the given text. -/
def ratingCard (t : String) : Card := ⟨[⟨[".rating"], t⟩]⟩

/-- A card with category links around separator noise: texts stripping to
"A", "B", "A", "" and "C". -/
def catCard : Card :=
  ⟨[⟨[".tags a"], " ·A—"⟩, ⟨[".service-items a"], "B "⟩, ⟨[".tags a"], "-A"⟩,
    ⟨[".tags a"], " — "⟩, ⟨[".tags a"], "C\t"⟩]⟩

/-- A card with a valid primary title link. -/
def cardA : Card := ⟨[⟨["a.title-link.js-item-url"], "Кафе Альфа"⟩]⟩

/-- Another card with a valid primary title link. -/
def cardB : Card := ⟨[⟨["a.title-link.js-item-url"], "Кафе Бета"⟩]⟩

/-- A card whose every title selector yields whitespace-only text. -/
def cardNoName : Card := ⟨[⟨["h2"], " "⟩]⟩

/-- A card whose primary title link has whitespace-only text but whose
secondary title element has a real name: the two variants disagree on it. -/
def cardMix : Card :=
  ⟨[⟨["a.title-link.js-item-url"], " "⟩, ⟨[".minicard-item__title"], "Ресторан"⟩]⟩

/-- Configuration of the three-page scenario. -/
def cfgC1 : ParserConfig := { total_pages := 3 }

/-- Browser oracle of the three-page scenario: no challenge, container
present, two valid cards on page 1 and none on any later page. -/
def envC1 : Nat → PageEnv := fun page =>
  { pageSource := fun _ => ""
    containerPresent := fun s => s == "ul.js-results-group"
    findCards := fun sel =>
      if page = 1 ∧ sel = ["li.minicard-item.js-results-item"] then [cardA, cardB] else [] }

/-- A card with a valid title, used on permanently challenged pages. -/
def cardZ : Card := ⟨[⟨["a.title-link.js-item-url"], "Бар Зет"⟩]⟩

/-- A page whose source always shows a challenge marker while the results
container and one card are nevertheless present (the conservative-detection
false-positive case). -/
def envChal : PageEnv :=
  { pageSource := fun _ => "cloudflare"
    containerPresent := fun s => s == "ul.js-results-group"
    findCards := fun sel =>
      if sel = ["li.minicard-item.js-results-item"] then [cardZ] else [] }

/-- Every page permanently challenged. -/
def envChalAll : Nat → PageEnv := fun _ => envChal

/-- The default configuration with the headless flag set. -/
def cfgHeadless : ParserConfig := { headless := true }

/-! ## C4: page-URL computation -/

/-- C4: for every page number k ≥ 1, the page-URL function returns the bare
base catalog URL when k = 1, and for k > 1 the base URL with its trailing
slashes stripped followed by "/page-" ++ k ++ "/". -/
theorem c4_page_url (cfg : ParserConfig) (k : Nat) :
    (k = 1 → cfg.page_url k = cfg.city_url) ∧
    (2 ≤ k → cfg.page_url k = rstripSlash cfg.city_url ++ "/page-" ++ toString k ++ "/") := by
  constructor
  · intro h
    simp [ParserConfig.page_url, h]
  · intro h
    have hk : k ≠ 1 := by omega
    simp [ParserConfig.page_url, hk]

/-- Witness for C4 at the default configuration, pages 1 and 5. -/
theorem c4_page_url_witness :
    (2 ≤ 5 ∧ defaultConfig.page_url 1 = defaultConfig.city_url ∧
      defaultConfig.page_url 5 =
        rstripSlash defaultConfig.city_url ++ "/page-" ++ toString 5 ++ "/") :=
  ⟨by decide, (c4_page_url defaultConfig 1).1 rfl, (c4_page_url defaultConfig 5).2 (by decide)⟩

/-! ## C5: rating extraction -/

/-- C5: rating extraction finds the first numeric pattern, normalizes the
comma and parses a decimal: "Rating: 4,5 stars" yields 4.5, "9" yields 9.0,
"no score" yields no rating, and in "4,5 из 5" the first pattern wins. -/
theorem c5_rating_parsing :
    extract_rating (ratingCard "Rating: 4,5 stars") = some (mkRat 9 2) ∧
    extract_rating (ratingCard "9") = some (mkRat 9 1) ∧
    extract_rating (ratingCard "no score") = none ∧
    extract_rating (ratingCard "4,5 из 5") = some (mkRat 9 2) := by
  decide

/-! ## C6: category extraction -/

/-- The deduplicating loop yields a subsequence of its input. -/
theorem dedupKeep_sublist (l : List String) :
    ∀ seen, (dedupKeep seen l).Sublist l := by
  induction l with
  | nil => intro seen; simp [dedupKeep]
  | cons t rest ih =>
    intro seen
    rw [dedupKeep]
    split
    · exact (ih (t :: seen)).cons₂ t
    · exact (ih seen).cons t

/-- Members produced by the deduplicating loop were not already seen. -/
theorem dedupKeep_not_seen (l : List String) :
    ∀ seen x, x ∈ dedupKeep seen l → seen.contains x = false := by
  induction l with
  | nil => intro seen x hx; simp [dedupKeep] at hx
  | cons t rest ih =>
    intro seen x hx
    rw [dedupKeep] at hx
    split at hx
    case isTrue hcond =>
      rcases List.mem_cons.mp hx with h | h
      · subst h
        have h2 := ((Bool.and_eq_true _ _).mp hcond).2
        simpa using h2
      · have hnot := ih (t :: seen) x h
        simp only [List.contains_cons, Bool.or_eq_false_iff] at hnot
        exact hnot.2
    case isFalse hcond => exact ih seen x hx

/-- The deduplicating loop produces no duplicates. -/
theorem dedupKeep_nodup (l : List String) :
    ∀ seen, (dedupKeep seen l).Nodup := by
  induction l with
  | nil => intro seen; simp [dedupKeep]
  | cons t rest ih =>
    intro seen
    rw [dedupKeep]
    split
    case isTrue hcond =>
      refine List.nodup_cons.mpr ⟨?_, ih (t :: seen)⟩
      intro hmem
      have h := dedupKeep_not_seen rest (t :: seen) t hmem
      simp [List.contains_cons] at h
    case isFalse hcond => exact ih seen

/-- The deduplicating loop keeps only non-empty strings. -/
theorem dedupKeep_all_nonempty (l : List String) :
    ∀ seen, (dedupKeep seen l).all (fun s => s != "") = true := by
  induction l with
  | nil => intro seen; simp [dedupKeep]
  | cons t rest ih =>
    intro seen
    rw [dedupKeep]
    split
    case isTrue hcond =>
      have h1 := ((Bool.and_eq_true _ _).mp hcond).1
      simp only [List.all_cons, h1, Bool.true_and]
      exact ih (t :: seen)
    case isFalse hcond => exact ih seen

/-- C6: category extraction trims separator noise and keeps the non-empty
strings at their first occurrence in encounter order: the noisy
"A", "B", "A", "", "C" card yields exactly ["A", "B", "C"], and in general
the result is a duplicate-free, empty-free subsequence of the stripped
texts. -/
theorem c6_categories :
    extract_categories catCard = ["A", "B", "C"] ∧
    ∀ card : Card,
      (extract_categories card).Nodup ∧
      (extract_categories card).Sublist (stripTexts card) ∧
      (extract_categories card).all (fun s => s != "") = true := by
  refine ⟨by decide, fun card => ⟨?_, ?_, ?_⟩⟩
  · exact dedupKeep_nodup (stripTexts card) []
  · exact dedupKeep_sublist (stripTexts card) []
  · exact dedupKeep_all_nonempty (stripTexts card) []

/-! ## C8: browser session release -/

/-- C8: the release runs in the guaranteed-cleanup block whatever the loop
body's outcome; the body's outcome is never overridden, the driver slot is
always cleared, `quit` is invoked exactly once when a driver exists, a
repeated release is a no-op, and `close` itself never lets an error
escape. -/
theorem c8_session_release (o : Except String RunState) (f g : Bool) (s : Session) :
    (runWithCleanup o f s).1 = o ∧
    (runWithCleanup o f s).2.driver = false ∧
    (runWithCleanup o f s).2.quitCalls = s.quitCalls + (if s.driver then 1 else 0) ∧
    close g (runWithCleanup o f s).2 = ((runWithCleanup o f s).2, Except.ok ()) ∧
    (close f s).2 = Except.ok () := by
  cases hs : s.driver <;> cases hf : f <;>
    simp [runWithCleanup, close, quitDriver, hs]

/-! ## C1: the three-page stop scenario -/

/-- C1 counterexample: in the totalPages = 3 scenario (page 1 two valid
cards, page 2 zero cards) the loop does stop with 2 accumulated records, but
the final log holds 4 entries — the two per-page opened-page lines are also
appended — not 2 as claimed. -/
theorem c1_counterexample :
    (runPages cfgC1 envC1).places.length = 2 ∧
    (runPages cfgC1 envC1).logs.length = 4 ∧
    ¬ (runPages cfgC1 envC1).logs.length = 2 := by
  decide

/-- C1 amended: the loop stops after page 2 (page 3 is never opened), the
final record count is 2, and the final log holds exactly the four entries
opened-1, success-1, opened-2, no-cards-stop-2. -/
theorem c1_amended :
    visitedCount cfgC1 envC1 1 cfgC1.total_pages initState = 2 ∧
    (runPages cfgC1 envC1).places.length = 2 ∧
    (runPages cfgC1 envC1).logs =
      [openedLine 1 (cfgC1.page_url 1), successLine 1 2 2 2,
       openedLine 2 (cfgC1.page_url 2), noCardsLine 2] := by
  decide

/-! ## C9: the two parallel variants -/

/-- C9 counterexample: the two variants are not extensionally equal. On a
card whose primary title link holds only whitespace, per-card extraction
disagrees (the config-driven variant falls through to the next title
selector, the script keeps the empty name); and on a permanently challenged
page with content behind it, the config-driven per-page step aborts while
the script's step continues. -/
theorem c9_counterexample :
    parse_card cardMix ≠ zoonParseCard cardMix ∧
    (process_page defaultConfig 1 envChal initState).2 = false ∧
    (zoonStep envChal 1 initState).2 = true := by
  decide

/-- C9 amended: the variants do agree extensionally on page-URL computation
(at the shared base URL), challenge-screen detection, card collection, and
on rating and categories extraction; name extraction, challenge handling and
hence the per-page step differ. -/
theorem c9_amended :
    (∀ n : Nat, defaultConfig.page_url n = zoonPageUrl n) ∧
    (∀ src : String, is_protect src = zoonIsProtect src) ∧
    (∀ env : PageEnv, collect_cards env = zoonCollectCards env) ∧
    (∀ card : Card, extract_rating card = zoonRating card) ∧
    (∀ card : Card, extract_categories card = zoonCategories card) :=
  ⟨fun _ => rfl, fun _ => rfl, fun _ => rfl, fun _ => rfl, fun _ => rfl⟩

/-! ## C2: persistent challenge aborts the whole run (config-driven variant) -/

/-- When every polled check still sees the challenge, no poll clears. -/
theorem clearWithin_eq_false (env : PageEnv) (start n : Nat)
    (h : ∀ i, i < n → protAt env (start + i) = true) :
    clearWithin env start n = false := by
  rw [clearWithin]
  rw [List.any_eq_false]
  intro i hi
  rw [List.mem_range] at hi
  simp [h i hi]

/-- Under a persistent challenge the protect handler reports failure with
the logged failure lines. -/
theorem handle_protect_screen_fails (cfg : ParserConfig) (page : Nat) (env : PageEnv)
    (h : if cfg.headless then
          ∀ i, i ≤ cfg.protect_poll_attempts → protAt env i = true
         else
          ∀ i, i ≤ cfg.protect_poll_attempts + cfg.protect_manual_retry_attempts →
            protAt env i = true) :
    handle_protect_screen cfg page env =
      (false,
       if cfg.headless then [challengeLine page, protectStopLine page]
       else [challengeLine page, manualConfirmLine page, protectManualStopLine page]) := by
  cases hH : cfg.headless with
  | true =>
    rw [hH] at h
    simp only [if_true] at h ⊢
    have h0 : protAt env 0 = true := h 0 (Nat.zero_le _)
    have hc1 : clearWithin env 1 cfg.protect_poll_attempts = false :=
      clearWithin_eq_false env 1 _ (fun i hi => h (1 + i) (by omega))
    rw [handle_protect_screen, h0, hc1, hH]
    simp
  | false =>
    rw [hH] at h
    simp at h ⊢
    have h0 : protAt env 0 = true := h 0 (Nat.zero_le _)
    have hc1 : clearWithin env 1 cfg.protect_poll_attempts = false :=
      clearWithin_eq_false env 1 _ (fun i hi => h (1 + i) (by omega))
    have hc2 : clearWithin env (1 + cfg.protect_poll_attempts)
        cfg.protect_manual_retry_attempts = false :=
      clearWithin_eq_false env _ _ (fun i hi => h (1 + cfg.protect_poll_attempts + i) (by omega))
    rw [handle_protect_screen, h0, hc1, hc2, hH]
    simp

/-- C2 amended (config-driven variant, as the claim states): if the
detector still reports a challenge after the bounded automatic polls while
headless, or after the bounded manual retries while non-headless, the page
aborts, the run loop terminates right there (no further page is processed),
and the last log entry is the logged failure. -/
theorem c2_amended (cfg : ParserConfig) (env : Nat → PageEnv) (page n : Nat) (st : RunState)
    (h : if cfg.headless then
          ∀ i, i ≤ cfg.protect_poll_attempts → protAt (env page) i = true
         else
          ∀ i, i ≤ cfg.protect_poll_attempts + cfg.protect_manual_retry_attempts →
            protAt (env page) i = true) :
    (process_page cfg page (env page) st).2 = false ∧
    runFrom cfg env page (n + 1) st = (process_page cfg page (env page) st).1 ∧
    (process_page cfg page (env page) st).1.logs.getLast? =
      some (if cfg.headless then protectStopLine page else protectManualStopLine page) := by
  have hps := handle_protect_screen_fails cfg page (env page) h
  have hp2 : (process_page cfg page (env page) st).2 = false := by
    rw [process_page, hps]
    simp
  refine ⟨hp2, ?_, ?_⟩
  · rw [runFrom, hp2]
    simp
  · rw [process_page, hps]
    cases hH : cfg.headless with
    | true =>
      simp [List.getLast?_append]
    | false =>
      simp [List.getLast?_append]

/-- Witness for C2's amended theorem: headless run, every page source is a
challenge page; the first page aborts the whole loop and logs the stop. -/
theorem c2_amended_witness :
    (∀ i, i ≤ cfgHeadless.protect_poll_attempts → protAt (envChalAll 1) i = true) ∧
    ((process_page cfgHeadless 1 (envChalAll 1) initState).2 = false ∧
     runFrom cfgHeadless envChalAll 1 (0 + 1) initState =
       (process_page cfgHeadless 1 (envChalAll 1) initState).1 ∧
     (process_page cfgHeadless 1 (envChalAll 1) initState).1.logs.getLast? =
       some (if cfgHeadless.headless then protectStopLine 1 else protectManualStopLine 1)) :=
  ⟨by decide, c2_amended cfgHeadless envChalAll 1 0 initState (by decide)⟩

/-- C2 counterexample (script variant): with every check still challenged
(and the script's hard-wired non-headless mode), the script's per-page step
does not abort — the run goes on and opens every one of the 34 pages, so a
persistent challenge is not a hard stop there. -/
theorem c2_counterexample :
    HEADLESS = false ∧
    (∀ i, i ≤ 8 → protAt envChal i = true) ∧
    (zoonStep envChal 1 initState).2 = true ∧
    zoonVisited envChalAll 1 TOTAL_PAGES initState = TOTAL_PAGES := by
  refine ⟨rfl, by decide, by decide, by decide⟩

/-! ## C3: accumulated records always have non-empty names -/

/-- The name invariant on an accumulator. -/
def namesOk (l : List Place) : Bool := l.all (fun p => p.name != "")

/-- A page step either leaves the accumulator unchanged (abort branches) or
extends it by exactly the parsed cards with non-empty names. -/
theorem process_page_places (cfg : ParserConfig) (page : Nat) (env : PageEnv) (st : RunState) :
    (process_page cfg page env st).1.places = st.places ∨
    (process_page cfg page env st).1.places = append_cards st.places (collect_cards env) := by
  unfold process_page
  dsimp only
  repeat' first
    | (left ; rfl)
    | (right ; rfl)
    | split

/-- Appending parsed cards preserves the name invariant: the filter keeps
only non-empty names. -/
theorem namesOk_append_cards (places : List Place) (cards : List Card)
    (h : namesOk places = true) : namesOk (append_cards places cards) = true := by
  rw [namesOk, append_cards, List.all_append]
  rw [namesOk] at h
  refine (Bool.and_eq_true _ _).mpr ⟨h, ?_⟩
  rw [List.all_eq_true]
  intro p hp
  exact (List.mem_filter.mp hp).2

/-- One page step preserves the name invariant. -/
theorem namesOk_process_page (cfg : ParserConfig) (page : Nat) (env : PageEnv) (st : RunState)
    (h : namesOk st.places = true) :
    namesOk (process_page cfg page env st).1.places = true := by
  rcases process_page_places cfg page env st with he | he
  · rw [he]; exact h
  · rw [he]; exact namesOk_append_cards _ _ h

/-- C3: at every point of a run every accumulated record has a non-empty
name — the loop preserves the invariant from any state satisfying it, a page
contributes exactly the parsed cards whose name is non-empty, and a card
whose every title selector yields whitespace-only text is not appended. -/
theorem c3_nonempty_names :
    (∀ (cfg : ParserConfig) (env : Nat → PageEnv) (page n : Nat) (st : RunState),
      namesOk st.places = true → namesOk (runFrom cfg env page n st).places = true) ∧
    (∀ (cfg : ParserConfig) (page : Nat) (env : PageEnv) (st : RunState),
      (process_page cfg page env st).1.places = st.places ∨
      (process_page cfg page env st).1.places = append_cards st.places (collect_cards env)) ∧
    append_cards [] [cardNoName, cardA] = [parse_card cardA] := by
  refine ⟨?_, process_page_places, by decide⟩
  intro cfg env page n st
  induction n generalizing page st with
  | zero => intro h; simpa [runFrom] using h
  | succ m ih =>
    intro h
    rw [runFrom]
    split
    · exact ih (page + 1) _ (namesOk_process_page _ _ _ _ h)
    · exact namesOk_process_page _ _ _ _ h

/-- Witness for C3 on the three-page scenario run. -/
theorem c3_nonempty_names_witness :
    namesOk initState.places = true ∧
    namesOk (runFrom cfgC1 envC1 1 3 initState).places = true :=
  ⟨by decide, c3_nonempty_names.1 cfgC1 envC1 1 3 initState (by decide)⟩

/-! ## C7: the partial save after every successful page -/

/-- C7: a successfully processed page appends exactly one partial save,
keyed by the zero-padded two-digit page number, whose CSV is rewritten in
full — the fixed header and one `placeRow` row (name; rating or empty;
categories joined with " | ") per accumulated record, in accumulation
order — alongside the full log history. -/
theorem c7_partial_save (cfg : ParserConfig) (page : Nat) (env : PageEnv) (st st' : RunState)
    (h : process_page cfg page env st = (st', true)) :
    st'.saves = st.saves ++
      [{ csvName := "zoon_tomsk_restaurants_page_" ++ pad2 page ++ ".csv"
         logName := "zoon_loader_log_page_" ++ pad2 page ++ ".txt"
         header := CSV_HEADER
         rows := df_from_places st'.places
         logLines := st'.logs }] ∧
    df_from_places st'.places = st'.places.map placeRow ∧
    (df_from_places st'.places).length = st'.places.length := by
  refine ⟨?_, rfl, by simp [df_from_places]⟩
  unfold process_page at h
  dsimp only at h
  repeat' split at h
  all_goals simp only [Prod.mk.injEq, Bool.false_eq_true, and_false, and_true] at h
  rw [← h]
  rfl

/-- Witness for C7: page 1 of the three-page scenario saves its snapshot. -/
theorem c7_partial_save_witness :
    process_page cfgC1 1 (envC1 1) initState =
      ((process_page cfgC1 1 (envC1 1) initState).1, true) ∧
    (process_page cfgC1 1 (envC1 1) initState).1.saves = initState.saves ++
      [{ csvName := "zoon_tomsk_restaurants_page_" ++ pad2 1 ++ ".csv"
         logName := "zoon_loader_log_page_" ++ pad2 1 ++ ".txt"
         header := CSV_HEADER
         rows := df_from_places (process_page cfgC1 1 (envC1 1) initState).1.places
         logLines := (process_page cfgC1 1 (envC1 1) initState).1.logs }] :=
  ⟨by decide,
   (c7_partial_save cfgC1 1 (envC1 1) initState
      (process_page cfgC1 1 (envC1 1) initState).1 (by decide)).1⟩

/-! ## C10: one opened-page log entry per visited page -/

/-- Whether a log entry is an opened-page line. -/
def isOpenedLine (l : String) : Bool := matchHere "Открыта страница ".data l.data

/-- Number of opened-page entries in a log. -/
def countOpened (logs : List String) : Nat := logs.countP (fun l => isOpenedLine l)

/-- A pattern always matches at the front of itself plus a tail. -/
theorem matchHere_self_append (t r : List Char) : matchHere t (t ++ r) = true := by
  induction t with
  | nil => rfl
  | cons a as ih => simp [matchHere, ih]

/-- Every opened-page line is recognized as one. -/
theorem isOpenedLine_openedLine (p : Nat) (u : String) :
    isOpenedLine (openedLine p u) = true := by
  rw [isOpenedLine, openedLine, String.data_append]
  exact matchHere_self_append _ _

/-- No per-page status line is an opened-page line. -/
theorem isOpenedLine_pageLine (p : Nat) (suf : String) :
    isOpenedLine (pageLine p suf) = false := by
  rw [isOpenedLine, pageLine, String.data_append]
  rfl

/-- Opened-entry counting distributes over log concatenation. -/
theorem countOpened_append (a b : List String) :
    countOpened (a ++ b) = countOpened a + countOpened b := by
  simp [countOpened, List.countP_append]

/-- The protect handler never logs an opened-page line. -/
theorem protect_logs_not_opened (cfg : ParserConfig) (page : Nat) (env : PageEnv) :
    ∀ a ∈ (handle_protect_screen cfg page env).2, isOpenedLine a = false := by
  rw [handle_protect_screen]
  repeat' split
  all_goals
    simp [challengeLine, protectStopLine, manualConfirmLine, protectManualStopLine,
      isOpenedLine_pageLine]

/-- Each page step adds exactly one opened-page entry to the log. -/
theorem countOpened_process_page (cfg : ParserConfig) (page : Nat) (env : PageEnv)
    (st : RunState) :
    countOpened (process_page cfg page env st).1.logs = countOpened st.logs + 1 := by
  unfold process_page
  dsimp only
  repeat' split
  all_goals
    simp [savePartial, countOpened, List.countP_cons, List.countP_append,
      isOpenedLine_openedLine, isOpenedLine_pageLine,
      containerStopLine, noCardsLine, successLine]
  all_goals exact protect_logs_not_opened cfg page env

/-- C10: each iteration appends the opened-page line for the page right
after navigation, ahead of any challenge-detection or outcome entry, and the
final log holds exactly one opened-page entry for every page the loop
visited — the aborting page included. -/
theorem c10_opened_entries :
    (∀ (cfg : ParserConfig) (page : Nat) (env : PageEnv) (st : RunState), ∃ rest,
      (process_page cfg page env st).1.logs =
        st.logs ++ openedLine page (cfg.page_url page) :: rest) ∧
    (∀ (cfg : ParserConfig) (env : Nat → PageEnv) (page n : Nat) (st : RunState),
      countOpened (runFrom cfg env page n st).logs =
        countOpened st.logs + visitedCount cfg env page n st) := by
  constructor
  · intro cfg page env st
    unfold process_page
    dsimp only
    repeat' split
    · exact ⟨(handle_protect_screen cfg page env).2, by simp⟩
    · exact ⟨(handle_protect_screen cfg page env).2 ++ [containerStopLine page], by simp⟩
    · exact ⟨(handle_protect_screen cfg page env).2 ++ [noCardsLine page], by simp⟩
    · exact ⟨(handle_protect_screen cfg page env).2 ++
        [successLine page (collect_cards env).length
          ((append_cards st.places (collect_cards env)).length - st.places.length)
          (append_cards st.places (collect_cards env)).length], by simp [savePartial]⟩
  · intro cfg env page n st
    induction n generalizing page st with
    | zero => simp [runFrom, visitedCount]
    | succ m ih =>
      rw [runFrom, visitedCount]
      cases hr : (process_page cfg page (env page) st).2 with
      | true =>
        simp only [hr, if_true]
        rw [ih, countOpened_process_page]
        omega
      | false =>
        simp only [hr, Bool.false_eq_true, if_false]
        rw [countOpened_process_page]

end Zoon
